import Mathlib

/-!
Formal model of the AbleDOOM Push-hardware interface layer.

The definitions below are a shallow embedding of the C++ sources
(`abledoom.hpp` / `abledoom.cpp`): MIDI bytes are `Nat` values below 256,
buffers are lists of `Nat`, the libusb transfer pipeline is explicit state
passing over a `DisplayData` record, and the asynchronous environment
(completion callbacks, libusb return codes) is an explicit input record.
Emitting a MIDI message is modelled by returning the 3-byte message.
-/

/-! ## Screen geometry constants (abledoom.hpp) -/

def PUSH_SCREEN_WIDTH : Nat := 960

def PUSH_SCREEN_HEIGHT : Nat := 160

def PUSH_SCREEN_STRIDE : Nat := 1024

/-- Doom framebuffer width; `static_assert(DOOMGENERIC_RESX == 320)` in
doomgeneric_pushstandalone.cpp. -/
def DOOMGENERIC_RESX : Nat := 320

/-- Doom framebuffer height; `static_assert(DOOMGENERIC_RESY == 200)`. -/
def DOOMGENERIC_RESY : Nat := 200

/-! ## Control identifiers and events -/

/-- Identifies a pad on the Push hardware (struct PadId). -/
structure PadId where
  x : Nat
  y : Nat
deriving DecidableEq, Repr

/-- Identifies a control (button or pad): `std::variant<PadId, ButtonId>`. -/
inductive ControlId where
  | pad (p : PadId)
  | button (id : Nat)
deriving DecidableEq, Repr

/-- Parsed Push MIDI input event (struct PushInputEvent). -/
structure PushInputEvent where
  id : ControlId
  pressed : Bool
deriving DecidableEq, Repr

/-- For queuing up Doom input events (struct DoomInputEvent). -/
structure DoomInputEvent where
  key : Nat
  pressed : Bool
deriving DecidableEq, Repr

/-! ## Pad note-number table and decoder helpers -/

/-- Pad Y coordinate (0 = topmost row) to MIDI note number:
`constexpr int Y_TO_PAD_ROW_START[] = {92, 84, 76, 68, 60, 52, 44, 36}`. -/
def Y_TO_PAD_ROW_START : List Nat := [92, 84, 76, 68, 60, 52, 44, 36]

/-- `bool isPad(uint8_t noteNumber)`: noteNumber >= 36 && noteNumber <= 99. -/
def isPad (noteNumber : Nat) : Bool :=
  decide (36 ≤ noteNumber ∧ noteNumber ≤ 99)

/-- `noteNumberToPadCoordinate`: find the first entry of `Y_TO_PAD_ROW_START`
the note number is greater than or equal to; the result is (offset from the
row start, row index), and (0, 0) if no entry matches. -/
def noteNumberToPadCoordinate (noteNumber : Nat) : Nat × Nat :=
  match Y_TO_PAD_ROW_START.findIdx? (fun value => decide (value ≤ noteNumber)) with
  | some i => (noteNumber - Y_TO_PAD_ROW_START.getD i 0, i)
  | none => (0, 0)

/-! ## LED output driver

Each `set...Light` member sends one 3-byte MIDI message through
`mpMidiOut->sendMessage`; here the functions return that message.
The C++ casts the number and value arguments to `uint8_t`, hence `% 256`. -/

/-- `PushHardware::setButtonLight`: a control-change (CC) message. -/
def setButtonLight (number value : Nat) : List Nat :=
  [0xB0, number % 256, value % 256]

/-- Note number computed by `PushHardware::setPadLight`:
`Y_TO_PAD_ROW_START[y] + x`. -/
def padNoteNumber (x y : Nat) : Nat :=
  Y_TO_PAD_ROW_START.getD y 0 + x

/-- `PushHardware::setPadLight`: note-off when value is 0, else note-on. -/
def setPadLight (x y value : Nat) : List Nat :=
  if value = 0 then
    [0x80, padNoteNumber x y % 256, 0]
  else
    [0x90, padNoteNumber x y % 256, value % 256]

/-- Button numbers skipped by the `switch` in `resetLEDs` ("unused, AFAICT"). -/
def SKIPPED_BUTTON_NUMBERS : List Nat := [52, 53, 66, 67, 68, 97, 98, 99, 100, 101]

/-- The `kAllButtons` array built by the constexpr lambda in
`PushHardware::resetLEDs`: `std::array<uint8_t, 102> result{3, 9}` leaves
elements 2..101 zero-initialized; the loop then writes `value` at index
`value - 18` for `value` from 20 to 119, except that the skipped numbers
hit the empty `switch` cases and leave their slot at its initial 0. -/
def kAllButtons : List Nat :=
  [3, 9] ++ (List.range 100).map (fun i =>
    if (20 + i) ∈ SKIPPED_BUTTON_NUMBERS then 0 else 20 + i)

/-- `PushHardware::resetLEDs`: the sequence of MIDI messages sent, in order:
`setButtonLight(button, 0)` for every entry of `kAllButtons`, then
`setPadLight(x, y, 0)` for y from 0 to 7 and x from 0 to 7. -/
def resetLEDs : List (List Nat) :=
  kAllButtons.map (fun button => setButtonLight button 0)
    ++ (List.range 8).flatMap (fun y =>
        (List.range 8).map (fun x => setPadLight x y 0))

/-! ## Input decoder -/

/-- `PushHardware::onMessage`, as the pure part: raw message bytes to the
optional event passed to the input callback. The C++ returns early for any
message whose size is not 3, computes `type = msg[0] & 0b11110000`, and
switches on it: 0x90 note-on and 0x80 note-off produce pad events for note
numbers in the pad range, 0xB0 control-change always produces a button event
pressed iff the value byte is 127, and anything else produces no event. -/
def onMessage (pMessage : List Nat) : Option PushInputEvent :=
  if pMessage.length ≠ 3 then none
  else
    let type := pMessage.getD 0 0 &&& 0xF0
    let number := pMessage.getD 1 0
    let value := pMessage.getD 2 0
    if type = 0x90 then
      if isPad number then
        some ⟨ControlId.pad ⟨(noteNumberToPadCoordinate number).1,
          (noteNumberToPadCoordinate number).2⟩, true⟩
      else none
    else if type = 0x80 then
      if isPad number then
        some ⟨ControlId.pad ⟨(noteNumberToPadCoordinate number).1,
          (noteNumberToPadCoordinate number).2⟩, false⟩
      else none
    else if type = 0xB0 then
      some ⟨ControlId.button number, decide (value = 127)⟩
    else none

/-! ## Pixel conversion and blit -/

/-- `uint16_t toBGR565(uint32_t color)`: pack a 24-bit color into the 16-bit
format expected by the Push display. -/
def toBGR565 (color : Nat) : Nat :=
  let r := (color &&& 0x00FF0000) >>> 16
  let g := (color &&& 0x0000FF00) >>> 8
  let b := color &&& 0x000000FF
  ((b &&& 0xF8) <<< 8) ||| ((g &&& 0xFC) <<< 3) ||| (r >>> 3)

/-- Write locations of `PushHardware::copyToScreen(srcBuffer, srcX, srcY,
srcWidth, srcHeight, destX, destY)`: after the two clamping `if`s the loop
writes `mScreenBuffer[destX + x + (y + destY) * PUSH_SCREEN_STRIDE]` for
every 0 <= y < srcHeight and 0 <= x < srcWidth; this returns that sequence
of linear indices (all `int` arithmetic, modelled on `Int`). -/
def copyToScreenWriteIndices
    (srcX srcY srcWidth srcHeight destX destY : Int) : List Int :=
  let width :=
    if destX + srcWidth ≥ (PUSH_SCREEN_WIDTH : Int) then
      (PUSH_SCREEN_WIDTH : Int) - destX
    else srcWidth
  let height :=
    if destY + srcHeight ≥ (PUSH_SCREEN_HEIGHT : Int) then
      (PUSH_SCREEN_HEIGHT : Int) - destY
    else srcHeight
  (List.range height.toNat).flatMap (fun (y : Nat) =>
    (List.range width.toNat).map (fun (x : Nat) =>
      destX + (x : Int) + ((y : Int) + destY) * (PUSH_SCREEN_STRIDE : Int)))

/-! ## Display transfer pipeline

`PushHardware::DisplayData` holds the transfer state; `onTransferFinished`
is the libusb completion callback; `submitDisplayFrameTransfer` kicks off
the two bulk transfers; `PushHardware::submitScreen` ties them together.
The libusb environment (which transfers have finished and with what status,
and the return codes of the libusb calls) is an explicit `UsbEnv` input. -/

/-- `LIBUSB_TRANSFER_COMPLETED` status code. -/
def LIBUSB_TRANSFER_COMPLETED : Nat := 0

/-- A finished libusb transfer as seen by `onTransferFinished`: its status,
requested and actually-transferred lengths, and whether it is the data
transfer (`transfer == pData->mpDataTransfer`) as opposed to the 16-byte
header transfer. -/
structure Transfer where
  status : Nat
  length : Nat
  actual_length : Nat
  isData : Bool
deriving DecidableEq, Repr

/-- `PushHardware::DisplayData` (the transfer-state fields; the device
handle and the two `libusb_transfer` pointers carry no modelled state
beyond `isData` above). -/
structure DisplayData where
  mTransferFailed : Bool
  mDisplayError : Int
  mUsbTransferBuffer : List Nat
  mTransferInProgress : Bool
deriving DecidableEq, Repr

/-- `onTransferFinished`: a non-success status or a short write marks the
pipeline failed and returns; otherwise, if the finished transfer is the
data transfer, the frame transmission is complete. -/
def onTransferFinished (transfer : Transfer) (pData : DisplayData) : DisplayData :=
  if transfer.status ≠ LIBUSB_TRANSFER_COMPLETED
      ∨ transfer.length ≠ transfer.actual_length then
    { pData with mTransferFailed := true }
  else if transfer.isData then
    { pData with mTransferInProgress := false }
  else
    pData

/-- The two bulk transfers a frame submission hands to libusb. -/
inductive BulkTransfer where
  | header
  | data
deriving DecidableEq, Repr

/-- Environment for one `submitScreen` call: the transfers that libusb
reports finished during the non-blocking `libusb_handle_events_timeout`
pump, that call's return code, and the return codes of the two
`libusb_submit_transfer` calls. -/
structure UsbEnv where
  finishedTransfers : List Transfer
  pumpResult : Int
  headerSubmitResult : Int
  dataSubmitResult : Int
deriving Repr

/-- Effect of `libusb_handle_events_timeout`: invoke `onTransferFinished`
for each finished transfer, in order. -/
def pumpEvents (finished : List Transfer) (pData : DisplayData) : DisplayData :=
  finished.foldl (fun d t => onTransferFinished t d) pData

/-- `submitDisplayFrameTransfer`: submit the header transfer, then the data
transfer; a negative result from either records it in `mDisplayError` and
returns early, and only after both succeed is `mTransferInProgress` set.
The returned list holds the transfers actually handed to libusb. -/
def submitDisplayFrameTransfer (env : UsbEnv) (pData : DisplayData) :
    DisplayData × List BulkTransfer :=
  if env.headerSubmitResult < 0 then
    ({ pData with mDisplayError := env.headerSubmitResult }, [])
  else if env.dataSubmitResult < 0 then
    ({ pData with mDisplayError := env.dataSubmitResult }, [BulkTransfer.header])
  else
    ({ pData with mTransferInProgress := true },
      [BulkTransfer.header, BulkTransfer.data])

/-- Exceptions thrown by `submitScreen`: `throwLibUsbError(code)` or the
`std::runtime_error("Display USB transfer failed")`. -/
inductive DisplayException where
  | libUsbError (code : Int)
  | transferFailedError
deriving DecidableEq, Repr

/-- State owned by `PushHardware` that the display path touches. -/
structure PushState where
  mScreenBuffer : List Nat
  mDisplayData : DisplayData
deriving DecidableEq, Repr

/-- Outcome of a `submitScreen` call: the state of the `PushHardware`
object afterwards (a C++ `throw` leaves the members as they were at the
throw point), the bulk transfers handed to libusb, and the exception
thrown, if any. -/
structure SubmitOutcome where
  state : PushState
  submitted : List BulkTransfer
  thrown : Option DisplayException
deriving Repr

/-- Little-endian bytes of one `uint16_t` screen-buffer element. -/
def uint16Bytes (v : Nat) : List Nat := [v % 256, v / 256 % 256]

/-- The `memcpy` of `mScreenBuffer` into the byte-typed
`mUsbTransferBuffer` (both x86 little-endian). -/
def screenBufferBytes (screen : List Nat) : List Nat :=
  screen.flatMap uint16Bytes

/-- Group a byte buffer into little-endian 32-bit words, as the
`reinterpret_cast<uint32_t*>` in `applySignalShapingPattern` does. -/
def toUint32Words : List Nat → List Nat
  | b0 :: b1 :: b2 :: b3 :: rest =>
    (b0 + 256 * b1 + 65536 * b2 + 16777216 * b3) :: toUint32Words rest
  | _ => []

/-- Little-endian bytes of one 32-bit word. -/
def uint32Bytes (w : Nat) : List Nat :=
  [w % 256, w / 256 % 256, w / 65536 % 256, w / 16777216 % 256]

/-- `applySignalShapingPattern`: XOR every 32-bit word of the transfer
buffer with `0xffe7f3e7`. -/
def applySignalShapingPattern (pBuffer : List Nat) : List Nat :=
  (toUint32Words pBuffer).flatMap (fun w => uint32Bytes (w ^^^ 0xffe7f3e7))

/-- Tail of `PushHardware::submitScreen` after the event pump: throw on a
recorded negative `mDisplayError`; throw on `mTransferFailed`; drop the
frame if a transfer is still in progress; otherwise copy the screen buffer
into the USB transfer buffer, apply the XOR pattern, and kick off the
transfers. -/
def submitScreenAfterPump (env : UsbEnv) (s : PushState) : SubmitOutcome :=
  let d := s.mDisplayData
  if d.mDisplayError < 0 then
    ⟨s, [], some (DisplayException.libUsbError d.mDisplayError)⟩
  else if d.mTransferFailed then
    ⟨s, [], some DisplayException.transferFailedError⟩
  else if d.mTransferInProgress then
    ⟨s, [], none⟩
  else
    let buffer := applySignalShapingPattern (screenBufferBytes s.mScreenBuffer)
    let afterSubmit :=
      submitDisplayFrameTransfer env { d with mUsbTransferBuffer := buffer }
    ⟨{ s with mDisplayData := afterSubmit.1 }, afterSubmit.2, none⟩

/-- `PushHardware::submitScreen`: when no failure and no negative error code
is recorded, service pending libusb events non-blocking (which may invoke
`onTransferFinished`) and throw if the pump itself fails; then continue as
in `submitScreenAfterPump`. -/
def submitScreen (env : UsbEnv) (s : PushState) : SubmitOutcome :=
  let d := s.mDisplayData
  if ¬d.mTransferFailed ∧ 0 ≤ d.mDisplayError then
    let pumped := { s with mDisplayData := pumpEvents env.finishedTransfers d }
    if env.pumpResult < 0 then
      ⟨pumped, [], some (DisplayException.libUsbError env.pumpResult)⟩
    else
      submitScreenAfterPump env pumped
  else
    submitScreenAfterPump env s

/-! ## AbleDoom control mapper -/

/-- Modelled from the spec: the Doom key codes named by the input-mapping
table come from doomgeneric's `doomkeys.h`, which is not among the sources
here; the values are doomgeneric's standard codes. The spec treats the
specific assignments as data; for the claims only the identity of
`KEY_F6` (quick save) and `KEY_F9` (quick load) matters. -/
def KEY_RIGHTARROW : Nat := 0xae

def KEY_LEFTARROW : Nat := 0xac

def KEY_UPARROW : Nat := 0xad

def KEY_DOWNARROW : Nat := 0xaf

def KEY_USE : Nat := 0xa2

def KEY_FIRE : Nat := 0xa3

def KEY_ESCAPE : Nat := 27

def KEY_ENTER : Nat := 13

def KEY_RSHIFT : Nat := 0xb6

def KEY_LALT : Nat := 0xb8

def KEY_F6 : Nat := 0xc0

def KEY_F9 : Nat := 0xc3

/-- Input mapping table row (struct InputMapping). -/
structure InputMapping where
  id : ControlId
  doomKey : Nat
  color : Option Nat
deriving DecidableEq, Repr

/-- `INPUT_MAPPING_TABLE`: Push control (button/pad) to keyboard key. -/
def INPUT_MAPPING_TABLE : List InputMapping := [
  ⟨ControlId.pad ⟨0, 3⟩, KEY_FIRE, none⟩,
  ⟨ControlId.pad ⟨1, 3⟩, KEY_LALT, none⟩,
  ⟨ControlId.pad ⟨2, 3⟩, KEY_USE, none⟩,
  ⟨ControlId.pad ⟨2, 5⟩, KEY_RSHIFT, none⟩,
  ⟨ControlId.pad ⟨6, 2⟩, KEY_UPARROW, none⟩,
  ⟨ControlId.pad ⟨5, 3⟩, KEY_LEFTARROW, none⟩,
  ⟨ControlId.pad ⟨6, 3⟩, KEY_DOWNARROW, none⟩,
  ⟨ControlId.pad ⟨7, 3⟩, KEY_RIGHTARROW, none⟩,
  ⟨ControlId.button 91, KEY_ENTER, none⟩,
  ⟨ControlId.button 33, KEY_ESCAPE, none⟩,
  ⟨ControlId.button 46, KEY_UPARROW, none⟩,
  ⟨ControlId.button 47, KEY_DOWNARROW, none⟩,
  ⟨ControlId.button 82, KEY_F6, none⟩,
  ⟨ControlId.pad ⟨0, 0⟩, 49, some 121⟩,
  ⟨ControlId.pad ⟨1, 0⟩, 50, some 121⟩,
  ⟨ControlId.pad ⟨2, 0⟩, 51, some 121⟩,
  ⟨ControlId.pad ⟨3, 0⟩, 52, some 121⟩,
  ⟨ControlId.pad ⟨4, 0⟩, 53, some 121⟩,
  ⟨ControlId.pad ⟨5, 0⟩, 54, some 121⟩,
  ⟨ControlId.pad ⟨6, 0⟩, 55, some 121⟩]

/-- State of `AbleDoom` touched by `onInput`. -/
structure AbleDoomState where
  mEventQueue : List DoomInputEvent
  mShiftHeld : Bool
deriving DecidableEq, Repr

/-- `AbleDoom::onInput`: button 49 (Shift) updates the held flag first;
then the control is looked up in the mapping table (`std::find_if`, first
match); on a match, Shift + the quick-save key substitutes the quick-load
key, and the resulting event is appended to the queue. -/
def onInput (input : PushInputEvent) (s : AbleDoomState) : AbleDoomState :=
  let shiftHeld :=
    if input.id = ControlId.button 49 then input.pressed else s.mShiftHeld
  match INPUT_MAPPING_TABLE.find? (fun mapping => decide (mapping.id = input.id)) with
  | some mapping =>
    let key :=
      if mapping.doomKey = KEY_F6 ∧ shiftHeld = true then KEY_F9
      else mapping.doomKey
    { mEventQueue := s.mEventQueue ++ [⟨key, input.pressed⟩],
      mShiftHeld := shiftHeld }
  | none => { s with mShiftHeld := shiftHeld }

/-! ## Helper lemmas -/

/-- Distributivity of right shift over bitwise and. -/
lemma land_shiftRight_distrib (a b k : Nat) :
    (a &&& b) >>> k = (a >>> k) &&& (b >>> k) := by
  apply Nat.eq_of_testBit_eq
  intro i
  simp [Nat.testBit_land, Nat.testBit_shiftRight]

/-- Distributivity of right shift over bitwise or. -/
lemma lor_shiftRight_distrib (a b k : Nat) :
    (a ||| b) >>> k = (a >>> k) ||| (b >>> k) := by
  apply Nat.eq_of_testBit_eq
  intro i
  simp [Nat.testBit_lor, Nat.testBit_shiftRight]

/-- Distributivity of bitwise and over bitwise or. -/
lemma lor_land_distrib (a b m : Nat) :
    (a ||| b) &&& m = (a &&& m) ||| (b &&& m) := by
  apply Nat.eq_of_testBit_eq
  intro i
  simp [Nat.testBit_land, Nat.testBit_lor, Bool.and_or_distrib_right]

/-- Masking a left-shifted value with a mask below the shift amount is zero. -/
lemma shiftLeft_land_small {m k : Nat} (a : Nat) (h : m < 2 ^ k) :
    (a <<< k) &&& m = 0 := by
  apply Nat.eq_of_testBit_eq
  intro i
  rw [Nat.testBit_land, Nat.testBit_shiftLeft, Nat.zero_testBit]
  rcases Nat.lt_or_ge i k with hik | hik
  · have hd : decide (i ≥ k) = false := decide_eq_false (by omega)
    simp [hd]
  · have hm : m < 2 ^ i := lt_of_lt_of_le h (Nat.pow_le_pow_right (by norm_num) hik)
    simp [Nat.testBit_eq_false_of_lt hm]

/-- Masking with 0xFF is reduction mod 256. -/
lemma land_mod_255 (a : Nat) : a &&& 255 = a % 256 := by
  have h := Nat.and_pow_two_sub_one_eq_mod a 8
  norm_num at h
  exact h

/-- Masking with 0x1F is reduction mod 32. -/
lemma land_mod_31 (a : Nat) : a &&& 31 = a % 32 := by
  have h := Nat.and_pow_two_sub_one_eq_mod a 5
  norm_num at h
  exact h

/-- Masking with 0x3F is reduction mod 64. -/
lemma land_mod_63 (a : Nat) : a &&& 63 = a % 64 := by
  have h := Nat.and_pow_two_sub_one_eq_mod a 6
  norm_num at h
  exact h

set_option maxRecDepth 2000 in
/-- Masking a byte with 0xF0 keeps the high nibble. -/
lemma byte_land_F0 : ∀ v : Fin 256, (v : Nat) &&& 0xF0 = (v : Nat) / 16 * 16 := by
  decide

set_option maxRecDepth 2000 in
/-- Masking a byte with 0xF8 keeps its top 5 bits. -/
lemma byte_land_F8 : ∀ v : Fin 256, (v : Nat) &&& 0xF8 = (v : Nat) / 8 * 8 := by
  decide

set_option maxRecDepth 2000 in
/-- Masking a byte with 0xFC keeps its top 6 bits. -/
lemma byte_land_FC : ∀ v : Fin 256, (v : Nat) &&& 0xFC = (v : Nat) / 4 * 4 := by
  decide

/-- Unfolding of `onMessage` on a 3-byte message. -/
lemma onMessage_three (a b c : Nat) :
    onMessage [a, b, c] =
      (if a &&& 0xF0 = 0x90 then
        if isPad b then
          some ⟨ControlId.pad ⟨(noteNumberToPadCoordinate b).1,
            (noteNumberToPadCoordinate b).2⟩, true⟩
        else none
      else if a &&& 0xF0 = 0x80 then
        if isPad b then
          some ⟨ControlId.pad ⟨(noteNumberToPadCoordinate b).1,
            (noteNumberToPadCoordinate b).2⟩, false⟩
        else none
      else if a &&& 0xF0 = 0xB0 then
        some ⟨ControlId.button b, decide (c = 127)⟩
      else none) := rfl

/-- The valid button numbers as the spec enumerates them: the literal
low-range set plus every number 20..119 except the exclusion list. -/
def VALID_BUTTON_NUMBERS : List Nat :=
  [3, 9] ++ ((List.range 100).map (fun i => 20 + i)).filter
    (fun n => decide (n ∉ SKIPPED_BUTTON_NUMBERS))

/-- A recorded transfer failure: `mTransferFailed` set by the completion
callback, or a negative `mDisplayError` recorded by a failed submission. -/
def transferFailedState (d : DisplayData) : Prop :=
  d.mTransferFailed = true ∨ d.mDisplayError < 0

/-! ## Claim theorems -/

set_option maxRecDepth 4000 in
/-- Claim C1, counterexample: `resetLEDs` does not emit off-commands only
for valid button numbers — the ten skipped slots of `kAllButtons` keep
their zero-initialized value, so the loop additionally sends ten
off-commands for button number 0, which is not a valid button number. -/
theorem resetLEDs_emits_button_zero_offs :
    (0 ∉ VALID_BUTTON_NUMBERS)
    ∧ resetLEDs.count (setButtonLight 0 0) = 10 := by
  decide

set_option maxRecDepth 8000 in
/-- Claim C1, amended: `resetLEDs` emits exactly one button off-command per
valid button number (the set {3, 9} plus 20..119 minus the exclusion list),
exactly one pad off-command per coordinate of the 8x8 grid (64 in total),
and, in addition, exactly ten off-commands for button number 0 (one per
excluded slot of the zero-initialized `kAllButtons` array); it emits no
other messages. -/
theorem resetLEDs_amended_enumeration :
    (∀ n ∈ VALID_BUTTON_NUMBERS, resetLEDs.count (setButtonLight n 0) = 1)
    ∧ resetLEDs.count (setButtonLight 0 0) = 10
    ∧ (∀ y ∈ List.range 8, ∀ x ∈ List.range 8,
        resetLEDs.count (setPadLight x y 0) = 1)
    ∧ resetLEDs.length = VALID_BUTTON_NUMBERS.length + 10 + 64
    ∧ (∀ msg ∈ resetLEDs, msg = setButtonLight 0 0
        ∨ (∃ n ∈ VALID_BUTTON_NUMBERS, msg = setButtonLight n 0)
        ∨ (∃ y ∈ List.range 8, ∃ x ∈ List.range 8, msg = setPadLight x y 0)) := by
  decide

/-- Witness for the amended C1 theorem at button number 3. -/
theorem resetLEDs_amended_enumeration_witness :
    resetLEDs.count (setButtonLight 3 0) = 1 :=
  resetLEDs_amended_enumeration.1 3 (by decide)

/-- Claim C4: for every note number 36..99, decoding to a pad coordinate
and re-encoding with the LED driver's note-number computation
(`Y_TO_PAD_ROW_START[y] + x`, as used by `setPadLight`) yields the original
number; equivalently, `setPadLight` at the decoded coordinate emits the
note-off message for that very note number. -/
theorem pad_note_roundTrip (n : Nat) (h1 : 36 ≤ n) (h2 : n ≤ 99) :
    padNoteNumber (noteNumberToPadCoordinate n).1 (noteNumberToPadCoordinate n).2 = n
    ∧ setPadLight (noteNumberToPadCoordinate n).1 (noteNumberToPadCoordinate n).2 0
      = [0x80, n, 0] := by
  interval_cases n <;> exact ⟨rfl, rfl⟩

/-- Witness for C4 at note number 36 (bottom-left pad). -/
theorem pad_note_roundTrip_witness :
    padNoteNumber (noteNumberToPadCoordinate 36).1 (noteNumberToPadCoordinate 36).2 = 36 :=
  (pad_note_roundTrip 36 (by decide) (by decide)).1

/-- Claim C6: every 3-byte message whose first byte has high nibble 0xB
decodes to a button event with id byte 1, pressed exactly when byte 2 is
127; concretely, {0xB0, 49, 127} is a pressed Button 49 event and
{0x90, 36, 100} is a pressed Pad (0, 7) event. -/
theorem onMessage_controlChange_button (a b c : Nat) (ha : a < 256)
    (hB : a / 16 = 0xB) :
    onMessage [a, b, c] = some ⟨ControlId.button b, decide (c = 127)⟩
    ∧ onMessage [0xB0, 49, 127] = some ⟨ControlId.button 49, true⟩
    ∧ onMessage [0x90, 36, 100] = some ⟨ControlId.pad ⟨0, 7⟩, true⟩ := by
  refine ⟨?_, by decide, by decide⟩
  have hnib : a &&& 0xF0 = a / 16 * 16 := byte_land_F0 ⟨a, ha⟩
  rw [onMessage_three, hnib]
  rw [if_neg (by omega), if_neg (by omega), if_pos (by omega)]

/-- Witness for C6 at the message {0xB0, 49, 127}. -/
theorem onMessage_controlChange_button_witness :
    onMessage [0xB0, 49, 127] = some ⟨ControlId.button 49, true⟩ :=
  (onMessage_controlChange_button 0xB0 49 127 (by decide) (by decide)).1

/-- Claim C9: with a non-negative destination position, every linear index
the converting blit writes into the fixed-size screen buffer lies within
the buffer of `PUSH_SCREEN_STRIDE * PUSH_SCREEN_HEIGHT` pixels, for
arbitrary source rectangle sizes — the clamping makes every write
in-bounds. -/
theorem copyToScreen_writes_in_bounds
    (srcX srcY srcWidth srcHeight destX destY : Int) (i : Int)
    (hx : 0 ≤ destX) (hy : 0 ≤ destY)
    (hi : i ∈ copyToScreenWriteIndices srcX srcY srcWidth srcHeight destX destY) :
    0 ≤ i ∧ i < (PUSH_SCREEN_STRIDE : Int) * (PUSH_SCREEN_HEIGHT : Int) := by
  rw [copyToScreenWriteIndices, List.mem_flatMap] at hi
  obtain ⟨y, hymem, hi2⟩ := hi
  rw [List.mem_map] at hi2
  obtain ⟨x, hxmem, rfl⟩ := hi2
  rw [List.mem_range] at hymem hxmem
  simp only [PUSH_SCREEN_WIDTH, PUSH_SCREEN_HEIGHT, PUSH_SCREEN_STRIDE]
    at hymem hxmem ⊢
  refine ⟨?_, ?_⟩ <;> (split_ifs at hymem hxmem <;> omega)

/-- Witness for C9: a 1x1 rectangle at the origin writes index 0, which is
in bounds. -/
theorem copyToScreen_writes_in_bounds_witness :
    (0 : Int) ∈ copyToScreenWriteIndices 0 0 1 1 0 0
    ∧ (0 ≤ (0 : Int)
        ∧ (0 : Int) < (PUSH_SCREEN_STRIDE : Int) * (PUSH_SCREEN_HEIGHT : Int)) :=
  ⟨by decide, copyToScreen_writes_in_bounds 0 0 1 1 0 0 0 (by decide) (by decide)
    (by decide)⟩

/-- Claim C10: the completion handler returns the pipeline to idle only for
a successful completion of the data transfer; a successful header
completion leaves the state untouched (still in flight), and any failed
completion marks the pipeline failed without clearing the in-flight flag. -/
theorem onTransferFinished_only_data_completion_idles (t : Transfer) (d : DisplayData) :
    (t.status = LIBUSB_TRANSFER_COMPLETED → t.length = t.actual_length →
      t.isData = true →
      onTransferFinished t d = { d with mTransferInProgress := false })
    ∧ (t.status = LIBUSB_TRANSFER_COMPLETED → t.length = t.actual_length →
      t.isData = false →
      onTransferFinished t d = d)
    ∧ (¬(t.status = LIBUSB_TRANSFER_COMPLETED ∧ t.length = t.actual_length) →
      (onTransferFinished t d).mTransferFailed = true
      ∧ (onTransferFinished t d).mTransferInProgress = d.mTransferInProgress)
    ∧ ((onTransferFinished t d).mTransferInProgress = false →
      d.mTransferInProgress = false
      ∨ (t.isData = true ∧ t.status = LIBUSB_TRANSFER_COMPLETED
          ∧ t.length = t.actual_length)) := by
  refine ⟨?_, ?_, ?_, ?_⟩ <;> simp only [onTransferFinished]
  · intro h1 h2 h3
    rw [if_neg (by simp [h1, h2]), if_pos h3]
  · intro h1 h2 h3
    rw [if_neg (by simp [h1, h2]), if_neg (by simp [h3])]
  · intro h
    rw [if_pos (by tauto)]
    exact ⟨rfl, rfl⟩
  · intro h
    by_cases hok : t.status = LIBUSB_TRANSFER_COMPLETED ∧ t.length = t.actual_length
    · rw [if_neg (by simp [hok.1, hok.2])] at h
      by_cases hdata : t.isData = true
      · right; exact ⟨hdata, hok.1, hok.2⟩
      · left; rw [if_neg hdata] at h; exact h
    · rw [if_pos (by tauto)] at h
      left; exact h

/-- Witness for C10: a successful header-transfer completion leaves an
in-flight pipeline in flight, and a short write marks it failed. -/
theorem onTransferFinished_only_data_completion_idles_witness :
    onTransferFinished ⟨0, 16, 16, false⟩ ⟨false, 0, [], true⟩ = ⟨false, 0, [], true⟩
    ∧ (onTransferFinished ⟨0, 2048, 13, true⟩ ⟨false, 0, [], true⟩).mTransferFailed
        = true :=
  ⟨(onTransferFinished_only_data_completion_idles ⟨0, 16, 16, false⟩
      ⟨false, 0, [], true⟩).2.1 rfl rfl rfl,
    ((onTransferFinished_only_data_completion_idles ⟨0, 2048, 13, true⟩
      ⟨false, 0, [], true⟩).2.2.1 (by simp)).1⟩

/-- Claim C2: while a transfer is in flight and no failure or error is
recorded, and the event pump reports nothing finished, `submitScreen` is a
no-op — the state (flags, error code and USB transfer buffer) is returned
unchanged, no bulk transfer is submitted, and nothing is thrown. -/
theorem submitScreen_inFlight_noop (env : UsbEnv) (s : PushState)
    (hprog : s.mDisplayData.mTransferInProgress = true)
    (hfail : s.mDisplayData.mTransferFailed = false)
    (herr : 0 ≤ s.mDisplayData.mDisplayError)
    (hev : env.finishedTransfers = [])
    (hpump : 0 ≤ env.pumpResult) :
    submitScreen env s = ⟨s, [], none⟩ := by
  have hguard : ¬s.mDisplayData.mTransferFailed = true
      ∧ 0 ≤ s.mDisplayData.mDisplayError := ⟨by simp [hfail], herr⟩
  simp only [submitScreen]
  rw [if_pos hguard, hev]
  simp only [pumpEvents, List.foldl_nil]
  rw [if_neg (by omega)]
  simp only [submitScreenAfterPump]
  rw [if_neg (by omega), if_neg (by simp [hfail])]
  simp [hprog]

/-- Witness for C2 at a concrete in-flight, non-failed state. -/
theorem submitScreen_inFlight_noop_witness :
    submitScreen ⟨[], 0, 0, 0⟩ ⟨[7, 7], ⟨false, 0, [1, 2], true⟩⟩
      = ⟨⟨[7, 7], ⟨false, 0, [1, 2], true⟩⟩, [], none⟩ :=
  submitScreen_inFlight_noop ⟨[], 0, 0, 0⟩ ⟨[7, 7], ⟨false, 0, [1, 2], true⟩⟩
    rfl rfl (by decide) rfl (by decide)

/-- Claim C3: a recorded failure is sticky and terminal — from any state
with `mTransferFailed` set or a negative `mDisplayError`, `submitScreen`
throws (a libusb error or the display-transfer-failed error), leaves the
state untouched and submits nothing; and no pipeline operation
(`onTransferFinished`, the event pump, `submitDisplayFrameTransfer`, or
`submitScreen` itself) ever clears the failed state. -/
theorem submitScreen_failure_sticky (env : UsbEnv) (s : PushState)
    (t : Transfer) (d : DisplayData)
    (hs : transferFailedState s.mDisplayData) (hd : transferFailedState d) :
    (submitScreen env s).state = s
    ∧ (submitScreen env s).submitted = []
    ∧ (submitScreen env s).thrown.isSome = true
    ∧ transferFailedState (submitScreen env s).state.mDisplayData
    ∧ transferFailedState (onTransferFinished t d)
    ∧ (∀ finished, transferFailedState (pumpEvents finished d))
    ∧ transferFailedState (submitDisplayFrameTransfer env d).1 := by
  have hguard : ¬(¬s.mDisplayData.mTransferFailed = true
      ∧ 0 ≤ s.mDisplayData.mDisplayError) := by
    rcases hs with h | h
    · exact fun hc => hc.1 h
    · exact fun hc => absurd hc.2 (by omega)
  have hsub : submitScreen env s = submitScreenAfterPump env s := by
    simp only [submitScreen]
    rw [if_neg hguard]
  have hout : submitScreenAfterPump env s = ⟨s, [],
      some (if s.mDisplayData.mDisplayError < 0 then
        DisplayException.libUsbError s.mDisplayData.mDisplayError
      else DisplayException.transferFailedError)⟩ := by
    simp only [submitScreenAfterPump]
    by_cases herr : s.mDisplayData.mDisplayError < 0
    · rw [if_pos herr, if_pos herr]
    · rw [if_neg herr, if_neg herr]
      have hfail : s.mDisplayData.mTransferFailed = true := by
        rcases hs with h | h
        · exact h
        · omega
      rw [if_pos hfail]
  have hpres : ∀ d2 : DisplayData, transferFailedState d2 →
      ∀ t2 : Transfer, transferFailedState (onTransferFinished t2 d2) := by
    intro d2 hd2 t2
    simp only [onTransferFinished]
    split
    · left; rfl
    · split
      · rcases hd2 with h | h
        · left; exact h
        · right; exact h
      · exact hd2
  refine ⟨by rw [hsub, hout], by rw [hsub, hout], by rw [hsub, hout]; rfl,
    by rw [hsub, hout]; exact hs, hpres d hd t, ?_, ?_⟩
  · intro finished
    induction finished generalizing d with
    | nil => exact hd
    | cons t2 rest ih =>
      exact ih (onTransferFinished t2 d) (hpres d hd t2)
  · simp only [submitDisplayFrameTransfer]
    split
    · right; simpa using by omega
    · split
      · right; simpa using by omega
      · rcases hd with h | h
        · left; exact h
        · right; exact h

/-- Witness for C3 at a concrete failed state. -/
theorem submitScreen_failure_sticky_witness :
    (submitScreen ⟨[], 0, 0, 0⟩ ⟨[], ⟨true, 0, [], false⟩⟩).thrown.isSome = true
    ∧ transferFailedState (onTransferFinished ⟨0, 16, 16, true⟩ ⟨true, 0, [], false⟩) :=
  ⟨(submitScreen_failure_sticky ⟨[], 0, 0, 0⟩ ⟨[], ⟨true, 0, [], false⟩⟩
      ⟨0, 16, 16, true⟩ ⟨true, 0, [], false⟩ (Or.inl rfl) (Or.inl rfl)).2.2.1,
    (submitScreen_failure_sticky ⟨[], 0, 0, 0⟩ ⟨[], ⟨true, 0, [], false⟩⟩
      ⟨0, 16, 16, true⟩ ⟨true, 0, [], false⟩ (Or.inl rfl) (Or.inl rfl)).2.2.2.2.1⟩

/-- Claim C5: the decoder produces an event exactly when the message has
length 3, the first byte's high nibble is 0x8, 0x9 or 0xB, and for 0x8/0x9
the note number is in the pad window 36..99; everything else yields `none`
(silently discarded, no error — the function is total). -/
theorem onMessage_event_iff :
    (∀ pMessage : List Nat, pMessage.length ≠ 3 → onMessage pMessage = none)
    ∧ (∀ a b c : Nat, a < 256 →
        ((onMessage [a, b, c]).isSome = true ↔
          ((a / 16 = 0x8 ∨ a / 16 = 0x9 ∨ a / 16 = 0xB)
            ∧ (a / 16 = 0x8 ∨ a / 16 = 0x9 → 36 ≤ b ∧ b ≤ 99)))) := by
  constructor
  · intro pMessage h
    simp only [onMessage, if_pos h]
  · intro a b c ha
    have hnib : a &&& 0xF0 = a / 16 * 16 := byte_land_F0 ⟨a, ha⟩
    rw [onMessage_three, hnib]
    by_cases h9 : a / 16 = 9
    · rw [if_pos (by omega)]
      by_cases hpb : 36 ≤ b ∧ b ≤ 99
      · simp [isPad, hpb, h9]
      · simp [isPad, hpb, h9]
    · rw [if_neg (by omega)]
      by_cases h8 : a / 16 = 8
      · rw [if_pos (by omega)]
        by_cases hpb : 36 ≤ b ∧ b ≤ 99
        · simp [isPad, hpb, h8]
        · simp [isPad, hpb, h8]
      · rw [if_neg (by omega)]
        by_cases hB : a / 16 = 11
        · rw [if_pos (by omega)]
          simp [hB, h8, h9]
        · rw [if_neg (by omega)]
          simp [h8, h9, hB]

/-- Witness for C5: a control-change message produces an event, and a
too-short message produces none. -/
theorem onMessage_event_iff_witness :
    (onMessage [0xB0, 5, 3]).isSome = true ∧ onMessage [0xB0, 5] = none :=
  ⟨(onMessage_event_iff.2 0xB0 5 3 (by decide)).mpr (by decide),
    onMessage_event_iff.1 [0xB0, 5] (by decide)⟩

/-- Field extraction from a packed 5-6-5 value: bits 15..11, 10..5 and 4..0
recover the three packed fields. -/
lemma pack565_fields (b2 g2 r2 : Nat) (hg : g2 < 64) (hr : r2 < 32) :
    ((b2 <<< 11) ||| (g2 <<< 5) ||| r2) >>> 11 = b2
    ∧ (((b2 <<< 11) ||| (g2 <<< 5) ||| r2) >>> 5) &&& 0x3F = g2
    ∧ ((b2 <<< 11) ||| (g2 <<< 5) ||| r2) &&& 0x1F = r2 := by
  refine ⟨?_, ?_, ?_⟩
  · rw [lor_shiftRight_distrib, lor_shiftRight_distrib]
    have e1 : (b2 <<< 11) >>> 11 = b2 := by
      rw [Nat.shiftLeft_eq, Nat.shiftRight_eq_div_pow]
      omega
    have e2 : (g2 <<< 5) >>> 11 = 0 := by
      rw [Nat.shiftLeft_eq, Nat.shiftRight_eq_div_pow]
      omega
    have e3 : r2 >>> 11 = 0 := by
      rw [Nat.shiftRight_eq_div_pow]
      omega
    rw [e1, e2, e3]
    simp
  · rw [lor_shiftRight_distrib, lor_shiftRight_distrib]
    have e1 : (b2 <<< 11) >>> 5 = b2 <<< 6 := by
      rw [Nat.shiftLeft_eq, Nat.shiftRight_eq_div_pow, Nat.shiftLeft_eq]
      omega
    have e2 : (g2 <<< 5) >>> 5 = g2 := by
      rw [Nat.shiftLeft_eq, Nat.shiftRight_eq_div_pow]
      omega
    have e3 : r2 >>> 5 = 0 := by
      rw [Nat.shiftRight_eq_div_pow]
      omega
    rw [e1, e2, e3, lor_land_distrib, lor_land_distrib]
    rw [shiftLeft_land_small b2 (by norm_num : (0x3F : Nat) < 2 ^ 6)]
    rw [land_mod_63, Nat.mod_eq_of_lt hg]
    simp [land_mod_63]
  · rw [lor_land_distrib, lor_land_distrib]
    rw [shiftLeft_land_small b2 (by norm_num : (0x1F : Nat) < 2 ^ 11)]
    rw [shiftLeft_land_small g2 (by norm_num : (0x1F : Nat) < 2 ^ 5)]
    rw [land_mod_31, Nat.mod_eq_of_lt hr]
    simp

/-- Claim C7: `toBGR565` packs a 24-bit color (red byte high, blue byte
low) into 16 bits as blue's top 5 bits in bits 15..11, green's top 6 bits
in bits 10..5 and red's top 5 bits in bits 4..0, by truncation only; the
three primary colors map to a single saturated field each. -/
theorem toBGR565_packing (cr cg cb : Nat)
    (hr : cr < 256) (hg : cg < 256) (hb : cb < 256) :
    toBGR565 (65536 * cr + 256 * cg + cb)
      = ((cb / 8) <<< 11) ||| ((cg / 4) <<< 5) ||| (cr / 8)
    ∧ toBGR565 (65536 * cr + 256 * cg + cb) >>> 11 = cb / 8
    ∧ (toBGR565 (65536 * cr + 256 * cg + cb) >>> 5) &&& 0x3F = cg / 4
    ∧ toBGR565 (65536 * cr + 256 * cg + cb) &&& 0x1F = cr / 8
    ∧ toBGR565 0xFF0000 = 0x1F
    ∧ toBGR565 0x00FF00 = 0x3F <<< 5
    ∧ toBGR565 0x0000FF = 0x1F <<< 11 := by
  have hmain : toBGR565 (65536 * cr + 256 * cg + cb)
      = ((cb / 8) <<< 11) ||| ((cg / 4) <<< 5) ||| (cr / 8) := by
    have hred : ((65536 * cr + 256 * cg + cb) &&& 0x00FF0000) >>> 16 = cr % 256 := by
      have h1 : (0x00FF0000 : Nat) = 0xFF <<< 16 := by decide
      rw [h1, land_shiftRight_distrib]
      have h2 : (0xFF <<< 16 : Nat) >>> 16 = 0xFF := by decide
      rw [h2, Nat.shiftRight_eq_div_pow]
      have h3 : (65536 * cr + 256 * cg + cb) / 2 ^ 16 = cr := by omega
      rw [h3, land_mod_255]
    have hgreen : ((65536 * cr + 256 * cg + cb) &&& 0x0000FF00) >>> 8 = cg := by
      have h1 : (0x0000FF00 : Nat) = 0xFF <<< 8 := by decide
      rw [h1, land_shiftRight_distrib]
      have h2 : (0xFF <<< 8 : Nat) >>> 8 = 0xFF := by decide
      rw [h2, Nat.shiftRight_eq_div_pow]
      have h3 : (65536 * cr + 256 * cg + cb) / 2 ^ 8 = 256 * cr + cg := by omega
      rw [h3, land_mod_255]
      omega
    have hblue : (65536 * cr + 256 * cg + cb) &&& 0x000000FF = cb := by
      have h := land_mod_255 (65536 * cr + 256 * cg + cb)
      norm_num at h ⊢
      rw [h]
      omega
    simp only [toBGR565]
    rw [hred, hgreen, hblue, Nat.mod_eq_of_lt hr]
    rw [byte_land_F8 ⟨cb, hb⟩, byte_land_FC ⟨cg, hg⟩]
    have e1 : (cb / 8 * 8) <<< 8 = (cb / 8) <<< 11 := by
      rw [Nat.shiftLeft_eq, Nat.shiftLeft_eq]
      ring
    have e2 : (cg / 4 * 4) <<< 3 = (cg / 4) <<< 5 := by
      rw [Nat.shiftLeft_eq, Nat.shiftLeft_eq]
      ring
    have e3 : cr >>> 3 = cr / 8 := by
      rw [Nat.shiftRight_eq_div_pow]
    rw [e1, e2, e3]
  have hfields := pack565_fields (cb / 8) (cg / 4) (cr / 8) (by omega) (by omega)
  exact ⟨hmain, by rw [hmain]; exact hfields.1, by rw [hmain]; exact hfields.2.1,
    by rw [hmain]; exact hfields.2.2, by decide, by decide, by decide⟩

/-- Witness for C7 at pure red 0xFF0000 (cr = 255, cg = cb = 0). -/
theorem toBGR565_packing_witness :
    toBGR565 (65536 * 255 + 256 * 0 + 0) &&& 0x1F = 255 / 8 :=
  (toBGR565_packing 255 0 0 (by decide) (by decide) (by decide)).2.2.2.1

/-- Claim C8: when a decoded input matches a mapping-table entry, holding
the modifier button 49 substitutes the quick-load key for the quick-save
key, and only for it: with Shift held, an entry carrying KEY_F6 enqueues
KEY_F9; without Shift, it enqueues its own key, and entries with any other
key are unaffected by the modifier state. Button 49 itself updates the
held flag, and no other control changes it. -/
theorem onInput_quickLoadChord (s : AbleDoomState) (input : PushInputEvent)
    (mapping : InputMapping)
    (hfind : INPUT_MAPPING_TABLE.find?
      (fun m => decide (m.id = input.id)) = some mapping) :
    (s.mShiftHeld = true ∧ mapping.doomKey = KEY_F6 →
      (onInput input s).mEventQueue = s.mEventQueue ++ [⟨KEY_F9, input.pressed⟩])
    ∧ (s.mShiftHeld = false →
      (onInput input s).mEventQueue
        = s.mEventQueue ++ [⟨mapping.doomKey, input.pressed⟩])
    ∧ (mapping.doomKey ≠ KEY_F6 →
      (onInput input s).mEventQueue
        = s.mEventQueue ++ [⟨mapping.doomKey, input.pressed⟩])
    ∧ (∀ p : Bool, (onInput ⟨ControlId.button 49, p⟩ s).mShiftHeld = p)
    ∧ (input.id ≠ ControlId.button 49 →
      (onInput input s).mShiftHeld = s.mShiftHeld) := by
  have hmem : mapping ∈ INPUT_MAPPING_TABLE := List.mem_of_find?_eq_some hfind
  have hideq : mapping.id = input.id := by
    have := List.find?_some hfind
    simpa using this
  have hno49 : ∀ m ∈ INPUT_MAPPING_TABLE, m.id ≠ ControlId.button 49 := by decide
  have hne : input.id ≠ ControlId.button 49 := hideq ▸ hno49 mapping hmem
  have hqueue : (onInput input s).mEventQueue = s.mEventQueue ++
      [⟨if mapping.doomKey = KEY_F6 ∧ s.mShiftHeld = true then KEY_F9
        else mapping.doomKey, input.pressed⟩] := by
    simp only [onInput, if_neg hne]
    rw [hfind]
  have hshift : (onInput input s).mShiftHeld = s.mShiftHeld := by
    simp only [onInput, if_neg hne]
    rw [hfind]
  refine ⟨?_, ?_, ?_, ?_, fun _ => hshift⟩
  · intro ⟨h1, h2⟩
    rw [hqueue, if_pos ⟨h2, h1⟩]
  · intro h1
    rw [hqueue, if_neg (by simp [h1])]
  · intro h1
    rw [hqueue, if_neg (by simp [h1])]
  · intro p
    have hnone : INPUT_MAPPING_TABLE.find?
        (fun m => decide (m.id
          = (⟨ControlId.button 49, p⟩ : PushInputEvent).id)) = none := by
      rfl
    simp only [onInput, hnone]
    simp

/-- Witness for C8: pressing the save button (82) with Shift held enqueues
the quick-load key. -/
theorem onInput_quickLoadChord_witness :
    (onInput ⟨ControlId.button 82, true⟩ ⟨[], true⟩).mEventQueue
      = [(⟨KEY_F9, true⟩ : DoomInputEvent)] :=
  (onInput_quickLoadChord ⟨[], true⟩ ⟨ControlId.button 82, true⟩
    ⟨ControlId.button 82, KEY_F6, none⟩ (by decide)).1 ⟨rfl, rfl⟩
